import Mathlib

/-!
Verification of the RFC 6724 destination-address sorting engine of the lwIP
netdb module (src/api/netdb.c).

An IPv6 address is embedded as the four 32-bit words of the C struct
ip6_addr_t, each viewed in host byte order.  All C macros compare the
network-order words against PP_HTONL constants; comparing host-order words
against the plain constants is equivalent because byte-swapping is a
bijection that commutes with the masks used.
-/

namespace LwipNetdb

/-- The four 32-bit words of an ip6_addr_t (host byte order view). -/
structure Ip6Addr where
  a0 : Nat
  a1 : Nat
  a2 : Nat
  a3 : Nat
deriving DecidableEq, Repr

/- ----------------------------------------------------------------
Address-range predicates defined in src/api/netdb.c itself.
---------------------------------------------------------------- -/

/-- Macro ip6_addr_isipv4compatibleipv6 from netdb.c: the first three words are zero. -/
def ip6_addr_isipv4compatibleipv6 (a : Ip6Addr) : Bool :=
  a.a0 == 0 && a.a1 == 0 && a.a2 == 0

/-- Macro ip6_addr_is6to4 from netdb.c: first 16 bits are 0x2002. -/
def ip6_addr_is6to4 (a : Ip6Addr) : Bool :=
  a.a0 &&& 0xffff0000 == 0x20020000

/-- Macro ip6_addr_isteredo from netdb.c: first 32 bits are 0x20010000. -/
def ip6_addr_isteredo (a : Ip6Addr) : Bool :=
  a.a0 &&& 0xffffffff == 0x20010000

/-- Macro ip6_addr_is6bone from netdb.c: first 16 bits are 0x3ffe. -/
def ip6_addr_is6bone (a : Ip6Addr) : Bool :=
  a.a0 &&& 0xffff0000 == 0x3ffe0000

/-- Macro ip6_addr_isip4vmappedlinklocal from netdb.c: IPv4-mapped 169.254/16. -/
def ip6_addr_isip4vmappedlinklocal (a : Ip6Addr) : Bool :=
  a.a0 == 0 && a.a1 == 0 && a.a2 == 0x0000ffff && (a.a3 &&& 0xffff0000 == 0xa9fe0000)

/-- Macro ip6_addr_isip4vmappedloopback from netdb.c: IPv4-mapped 127/8. -/
def ip6_addr_isip4vmappedloopback (a : Ip6Addr) : Bool :=
  a.a0 == 0 && a.a1 == 0 && a.a2 == 0x0000ffff && (a.a3 &&& 0xff000000 == 0x7f000000)

/- ----------------------------------------------------------------
Address predicates used by netdb.c but defined in the lwIP ip6_addr
header, which is not part of the provided sources.
---------------------------------------------------------------- -/

/-- Modelled from the spec: the lwIP macro ip6_addr_ismulticast (ff00::/8),
missing from the provided sources. -/
def ip6_addr_ismulticast (a : Ip6Addr) : Bool :=
  a.a0 &&& 0xff000000 == 0xff000000

/-- Modelled from the spec: the lwIP macro ip6_addr_multicast_scope, missing
from the provided sources; the low nibble of the second byte. -/
def ip6_addr_multicast_scope (a : Ip6Addr) : Nat :=
  (a.a0 >>> 16) &&& 0xf

/-- Modelled from the spec: the lwIP macro ip6_addr_islinklocal (fe80::/10),
missing from the provided sources. -/
def ip6_addr_islinklocal (a : Ip6Addr) : Bool :=
  a.a0 &&& 0xffc00000 == 0xfe800000

/-- Modelled from the spec: the lwIP macro ip6_addr_isloopback (::1/128),
missing from the provided sources. -/
def ip6_addr_isloopback (a : Ip6Addr) : Bool :=
  a.a0 == 0 && a.a1 == 0 && a.a2 == 0 && a.a3 == 1

/-- Modelled from the spec: the lwIP macro ip6_addr_issitelocal (fec0::/10),
missing from the provided sources. -/
def ip6_addr_issitelocal (a : Ip6Addr) : Bool :=
  a.a0 &&& 0xffc00000 == 0xfec00000

/-- Modelled from the spec: the lwIP macro ip6_addr_isuniquelocal (fc00::/7),
missing from the provided sources. -/
def ip6_addr_isuniquelocal (a : Ip6Addr) : Bool :=
  a.a0 &&& 0xfe000000 == 0xfc000000

/-- Modelled from the spec: the lwIP macro ip6_addr_isipv4mappedipv6
(::ffff:0:0/96), missing from the provided sources. -/
def ip6_addr_isipv4mappedipv6 (a : Ip6Addr) : Bool :=
  a.a0 == 0 && a.a1 == 0 && a.a2 == 0x0000ffff

/-- Modelled from the spec: the lwIP macro ip6_addr_isany_val, missing from
the provided sources; all four words zero. -/
def ip6_addr_isany_val (a : Ip6Addr) : Bool :=
  a.a0 == 0 && a.a1 == 0 && a.a2 == 0 && a.a3 == 0

/-- Modelled from the spec: the lwIP macro ip4_2_ipv4_mapped_ipv6, missing
from the provided sources; view the IPv4 address word as ::ffff:a.b.c.d. -/
def ip4_2_ipv4_mapped_ipv6 (ip4 : Nat) : Ip6Addr :=
  ⟨0, 0, 0x0000ffff, ip4⟩

/- ----------------------------------------------------------------
Multicast scope constants (lwIP ip6_addr.h values, as used by netdb.c).
---------------------------------------------------------------- -/

def IP6_MULTICAST_SCOPE_RESERVED : Nat := 0x0
def IP6_MULTICAST_SCOPE_LINK_LOCAL : Nat := 0x2
def IP6_MULTICAST_SCOPE_SITE_LOCAL : Nat := 0x5
def IP6_MULTICAST_SCOPE_GLOBAL : Nat := 0xe

/- Labels for the default precedence table from RFC 6724 (netdb.c defines). -/

def IP6_PRECEDENCE_LABEL_LOCALHOST : Nat := 0x0
def IP6_PRECEDENCE_LABEL_GENERAL : Nat := 0x1
def IP6_PRECEDENCE_LABEL_IPV4_COMPATIBLE_IPV6 : Nat := 0x3
def IP6_PRECEDENCE_LABEL_6TO4 : Nat := 0x2
def IP6_PRECEDENCE_LABEL_IPV4_MAPPED_IPV6 : Nat := 0x4
def IP6_PRECEDENCE_LABEL_TOREDO : Nat := 0x5
def IP6_PRECEDENCE_LABEL_SITE_LOCAL : Nat := 0xb
def IP6_PRECEDENCE_LABEL_6BONE : Nat := 0xc
def IP6_PRECEDENCE_LABEL_ULA : Nat := 0xd

/-- Function dns_addr_get_scope from netdb.c: scope of an IPv6 address,
including IPv4-mapped addresses. -/
def dns_addr_get_scope (addr : Ip6Addr) : Nat :=
  if ip6_addr_ismulticast addr then
    ip6_addr_multicast_scope addr
  else if ip6_addr_islinklocal addr || ip6_addr_isloopback addr
      || ip6_addr_isip4vmappedlinklocal addr || ip6_addr_isip4vmappedloopback addr then
    IP6_MULTICAST_SCOPE_LINK_LOCAL
  else if ip6_addr_issitelocal addr then
    IP6_MULTICAST_SCOPE_SITE_LOCAL
  else
    IP6_MULTICAST_SCOPE_GLOBAL

/-- Function dns_get_precedence_label from netdb.c: precedence label by
longest-first ordered range tests. -/
def dns_get_precedence_label (addr : Ip6Addr) : Nat :=
  if ip6_addr_isloopback addr then IP6_PRECEDENCE_LABEL_LOCALHOST
  else if ip6_addr_isipv4mappedipv6 addr then IP6_PRECEDENCE_LABEL_IPV4_MAPPED_IPV6
  else if ip6_addr_isipv4compatibleipv6 addr then IP6_PRECEDENCE_LABEL_IPV4_COMPATIBLE_IPV6
  else if ip6_addr_isteredo addr then IP6_PRECEDENCE_LABEL_TOREDO
  else if ip6_addr_is6to4 addr then IP6_PRECEDENCE_LABEL_6TO4
  else if ip6_addr_is6bone addr then IP6_PRECEDENCE_LABEL_6BONE
  else if ip6_addr_issitelocal addr then IP6_PRECEDENCE_LABEL_SITE_LOCAL
  else if ip6_addr_isuniquelocal addr then IP6_PRECEDENCE_LABEL_ULA
  else IP6_PRECEDENCE_LABEL_GENERAL

/-- Function dns_precedence_for_label from netdb.c: the C switch statement,
in source order, with cases 3, 11 and 12 sharing the value 1. -/
def dns_precedence_for_label (label : Nat) : Nat :=
  if label = IP6_PRECEDENCE_LABEL_LOCALHOST then 50
  else if label = IP6_PRECEDENCE_LABEL_GENERAL then 40
  else if label = IP6_PRECEDENCE_LABEL_IPV4_MAPPED_IPV6 then 35
  else if label = IP6_PRECEDENCE_LABEL_6TO4 then 30
  else if label = IP6_PRECEDENCE_LABEL_TOREDO then 5
  else if label = IP6_PRECEDENCE_LABEL_ULA then 3
  else if label = IP6_PRECEDENCE_LABEL_IPV4_COMPATIBLE_IPV6
      ∨ label = IP6_PRECEDENCE_LABEL_SITE_LOCAL
      ∨ label = IP6_PRECEDENCE_LABEL_6BONE then 1
  else 0

/-- Function dns_compare_destination_address from netdb.c: rule-ordered
comparison of two candidate destination addresses (both in IPv6 form) given
the three source-summary flag words. -/
def dns_compare_destination_address (cand_dest_addr_1 cand_dest_addr_2 : Ip6Addr)
    (has_ipv6_source_scope_flags has_ipv4_source_scope_flags
     has_source_precedence_label_flags : Nat) : Int :=
  let cand_1_scope := dns_addr_get_scope cand_dest_addr_1
  let cand_1_matching_scope : Bool :=
    if ip6_addr_isipv4mappedipv6 cand_dest_addr_1 then
      ((1 <<< cand_1_scope) &&& has_ipv4_source_scope_flags) != 0
    else
      ((1 <<< cand_1_scope) &&& has_ipv6_source_scope_flags) != 0
  let cand_2_scope := dns_addr_get_scope cand_dest_addr_2
  let cand_2_matching_scope : Bool :=
    if ip6_addr_isipv4mappedipv6 cand_dest_addr_2 then
      ((1 <<< cand_2_scope) &&& has_ipv4_source_scope_flags) != 0
    else
      ((1 <<< cand_2_scope) &&& has_ipv6_source_scope_flags) != 0
  if cand_1_matching_scope && !cand_2_matching_scope then 1
  else if cand_2_matching_scope && !cand_1_matching_scope then -1
  else
    let cand_1_label := dns_get_precedence_label cand_dest_addr_1
    let cand_1_matching_label : Bool :=
      ((1 <<< cand_1_label) &&& has_source_precedence_label_flags) != 0
    let cand_2_label := dns_get_precedence_label cand_dest_addr_2
    let cand_2_matching_label : Bool :=
      ((1 <<< cand_2_label) &&& has_source_precedence_label_flags) != 0
    if cand_1_matching_label && !cand_2_matching_label then 1
    else if cand_2_matching_label && !cand_1_matching_label then -1
    else
      let cand_1_precedence := dns_precedence_for_label cand_1_label
      let cand_2_precedence := dns_precedence_for_label cand_2_label
      if cand_1_precedence > cand_2_precedence then 1
      else if cand_2_precedence > cand_1_precedence then -1
      else if cand_1_scope < cand_2_scope then 1
      else if cand_2_scope < cand_1_scope then -1
      else 0

/- ----------------------------------------------------------------
Tagged addresses (ip_addr_t) and the destination sort.
---------------------------------------------------------------- -/

/-- The tagged union ip_addr_t: an IPv4 word or an IPv6 address with its
zone id.  The zone id travels with the element but is never examined. -/
inductive IpAddr where
  | v4 (addr : Nat) : IpAddr
  | v6 (addr : Ip6Addr) (zone : Nat) : IpAddr
deriving DecidableEq, Repr

/-- The per-element mapping done inside lwip_sortdestinationaddresses:
an IPv4 element is viewed as IPv4-mapped IPv6, an IPv6 element is used
as stored. -/
def ip_addr_as_ip6 (a : IpAddr) : Ip6Addr :=
  match a with
  | .v4 addr4 => ip4_2_ipv4_mapped_ipv6 addr4
  | .v6 addr6 _ => addr6

/-- The three source-summary flag words built by the first loop of
lwip_sortdestinationaddresses: ipv6 scope flags, ipv4 scope flags and
precedence label flags. -/
structure SourceFlags where
  has_ipv6_source_scope_flags : Nat
  has_ipv4_source_scope_flags : Nat
  has_source_precedence_label_flags : Nat
deriving DecidableEq, Repr

/-- One step of the source-summary loop of lwip_sortdestinationaddresses. -/
def summarize_source_step (f : SourceFlags) (cand : IpAddr) : SourceFlags :=
  let source_addr := ip_addr_as_ip6 cand
  let labels := f.has_source_precedence_label_flags
    ||| (1 <<< dns_get_precedence_label source_addr)
  if ip6_addr_isipv4mappedipv6 source_addr then
    { f with has_source_precedence_label_flags := labels,
             has_ipv4_source_scope_flags :=
               f.has_ipv4_source_scope_flags ||| (1 <<< dns_addr_get_scope source_addr) }
  else
    { f with has_source_precedence_label_flags := labels,
             has_ipv6_source_scope_flags :=
               f.has_ipv6_source_scope_flags ||| (1 <<< dns_addr_get_scope source_addr) }

/-- The source-summary loop of lwip_sortdestinationaddresses over the whole
candidate source list, starting from all-zero flag words. -/
def summarize_sources (cand_source_addr_list : List IpAddr) : SourceFlags :=
  cand_source_addr_list.foldl summarize_source_step ⟨0, 0, 0⟩

/-- The comparison applied to two destination list elements: both are viewed
in IPv6 form and handed to dns_compare_destination_address. -/
def dest_cmp (f : SourceFlags) (x y : IpAddr) : Int :=
  dns_compare_destination_address (ip_addr_as_ip6 x) (ip_addr_as_ip6 y)
    f.has_ipv6_source_scope_flags f.has_ipv4_source_scope_flags
    f.has_source_precedence_label_flags

/-- The inner loop of the bubble sort in lwip_sortdestinationaddresses:
walk the list left to right, performing the first k adjacent comparisons
and swapping a pair whenever the comparison is negative. -/
def bubble_pass {α : Type} (cmp : α → α → Int) : Nat → List α → List α
  | 0, l => l
  | _ + 1, [] => []
  | _ + 1, [a] => [a]
  | k + 1, a :: b :: rest =>
    if cmp a b < 0 then b :: bubble_pass cmp k (a :: rest)
    else a :: bubble_pass cmp k (b :: rest)

/-- The outer loop of the bubble sort in lwip_sortdestinationaddresses:
with fuel s, perform passes of k = s, s - 1, ..., 1 comparisons.  Called
with s = length - 1 this is exactly the C double loop. -/
def bubble_steps {α : Type} (cmp : α → α → Int) : Nat → List α → List α
  | 0, l => l
  | s + 1, l => bubble_steps cmp s (bubble_pass cmp (s + 1) l)

/-- Function lwip_sortdestinationaddresses from netdb.c: summarise the
candidate source addresses into the three flag words, then bubble-sort the
destination list with dns_compare_destination_address, swapping an adjacent
pair exactly when the comparison is negative.  Lists of length at most one
are returned untouched by the initial short circuit. -/
def lwip_sortdestinationaddresses (dest_addr_list : List IpAddr)
    (cand_source_addr_list : List IpAddr) : List IpAddr :=
  if dest_addr_list.length ≤ 1 then dest_addr_list
  else
    bubble_steps (dest_cmp (summarize_sources cand_source_addr_list))
      (dest_addr_list.length - 1) dest_addr_list

/- ----------------------------------------------------------------
Spec-side definitions, written from the words of the specification,
to be compared with the source-derived functions above.
---------------------------------------------------------------- -/

/-- The label function as the specification words it: test the prefix
predicates in the fixed order ::1/128, ::ffff:0:0/96, ::/96, 2001::/32,
2002::/16, 3ffe::/16, fec0::/10, fc00::/7 and return the first match,
with General as the universal default. -/
def label_spec (a : Ip6Addr) : Nat :=
  if ip6_addr_isloopback a then 0
  else if ip6_addr_isipv4mappedipv6 a then 4
  else if ip6_addr_isipv4compatibleipv6 a then 3
  else if ip6_addr_isteredo a then 5
  else if ip6_addr_is6to4 a then 2
  else if ip6_addr_is6bone a then 12
  else if ip6_addr_issitelocal a then 11
  else if ip6_addr_isuniquelocal a then 13
  else 1

/-- The scope function as the specification words it: the multicast scope
nibble for multicast addresses; LinkLocal for IPv6 link-local, IPv6
loopback, IPv4-mapped 169.254/16 and IPv4-mapped 127/8; Site for fec0::/10;
Global otherwise. -/
def scope_spec (a : Ip6Addr) : Nat :=
  if ip6_addr_ismulticast a then ip6_addr_multicast_scope a
  else if ip6_addr_islinklocal a || ip6_addr_isloopback a
      || ip6_addr_isip4vmappedlinklocal a || ip6_addr_isip4vmappedloopback a then 0x2
  else if ip6_addr_issitelocal a then 0x5
  else 0xe

/-- The precedence table exactly as in RFC 6724 section 2.1, read off the
table rows of the specification, with every unlisted label mapped to 0. -/
def precedence_spec (label : Nat) : Nat :=
  if label = 0 then 50
  else if label = 1 then 40
  else if label = 2 then 30
  else if label = 3 then 1
  else if label = 4 then 35
  else if label = 5 then 5
  else if label = 11 then 1
  else if label = 12 then 1
  else if label = 13 then 3
  else 0

/-- Rule 2 test of the specification: the scope bit of the destination is
set in the source mask of the destination family (ipv4 mask for
IPv4-mapped destinations, ipv6 mask otherwise). -/
def scope_matches (a : Ip6Addr) (v6f v4f : Nat) : Bool :=
  if ip6_addr_isipv4mappedipv6 a then ((1 <<< dns_addr_get_scope a) &&& v4f) != 0
  else ((1 <<< dns_addr_get_scope a) &&& v6f) != 0

/-- Rule 5 test of the specification: the label bit of the destination is
set in the label mask. -/
def label_matches (a : Ip6Addr) (labf : Nat) : Bool :=
  ((1 <<< dns_get_precedence_label a) &&& labf) != 0

/-- Precedence of the label of a destination address. -/
def dest_precedence (a : Ip6Addr) : Nat :=
  dns_precedence_for_label (dns_get_precedence_label a)

/-- Verdict of rule 2 as the specification words it. -/
def rule2_verdict (a b : Ip6Addr) (v6f v4f : Nat) : Int :=
  if scope_matches a v6f v4f && !scope_matches b v6f v4f then 1
  else if scope_matches b v6f v4f && !scope_matches a v6f v4f then -1
  else 0

/-- Verdict of rule 5 as the specification words it. -/
def rule5_verdict (a b : Ip6Addr) (labf : Nat) : Int :=
  if label_matches a labf && !label_matches b labf then 1
  else if label_matches b labf && !label_matches a labf then -1
  else 0

/-- Verdict of rule 6 as the specification words it: higher precedence wins. -/
def rule6_verdict (a b : Ip6Addr) : Int :=
  if dest_precedence a > dest_precedence b then 1
  else if dest_precedence b > dest_precedence a then -1
  else 0

/-- Verdict of rule 8 as the specification words it: smaller scope wins. -/
def rule8_verdict (a b : Ip6Addr) : Int :=
  if dns_addr_get_scope a < dns_addr_get_scope b then 1
  else if dns_addr_get_scope b < dns_addr_get_scope a then -1
  else 0

/-- First non-zero verdict of a rule list, 0 when all rules tie. -/
def firstNonzero : List Int → Int
  | [] => 0
  | x :: xs => if x ≠ 0 then x else firstNonzero xs

/-- The comparator unfolded into the flat chain of its eight early returns.
This is a definitional equality used by the remaining comparator proofs. -/
theorem dns_compare_unfold (a b : Ip6Addr) (v6f v4f labf : Nat) :
    dns_compare_destination_address a b v6f v4f labf =
      (if scope_matches a v6f v4f && !scope_matches b v6f v4f then 1
       else if scope_matches b v6f v4f && !scope_matches a v6f v4f then -1
       else if label_matches a labf && !label_matches b labf then 1
       else if label_matches b labf && !label_matches a labf then -1
       else if dest_precedence a > dest_precedence b then 1
       else if dest_precedence b > dest_precedence a then -1
       else if dns_addr_get_scope a < dns_addr_get_scope b then 1
       else if dns_addr_get_scope b < dns_addr_get_scope a then -1
       else 0) := rfl

/-- Encode a Bool as the integer 0 or 1. -/
def bool01 (b : Bool) : Int := if b then 1 else 0

/-- The four-component sort key of a destination under a source summary:
scope match, label match, precedence, negated scope. -/
def destKey (a : Ip6Addr) (v6f v4f labf : Nat) : Int × Int × Int × Int :=
  (bool01 (scope_matches a v6f v4f), bool01 (label_matches a labf),
   (dest_precedence a : Int), -(dns_addr_get_scope a : Int))

/-- Lexicographic three-way comparison of two four-component keys. -/
def keyCmp (x y : Int × Int × Int × Int) : Int :=
  if x.1 > y.1 then 1 else if y.1 > x.1 then -1
  else if x.2.1 > y.2.1 then 1 else if y.2.1 > x.2.1 then -1
  else if x.2.2.1 > y.2.2.1 then 1 else if y.2.2.1 > x.2.2.1 then -1
  else if x.2.2.2 > y.2.2.2 then 1 else if y.2.2.2 > x.2.2.2 then -1
  else 0

/-- The comparator is the lexicographic comparison of the two sort keys. -/
theorem dns_compare_eq_keyCmp (a b : Ip6Addr) (v6f v4f labf : Nat) :
    dns_compare_destination_address a b v6f v4f labf
      = keyCmp (destKey a v6f v4f labf) (destKey b v6f v4f labf) := by
  rw [dns_compare_unfold]
  unfold keyCmp destKey bool01
  rcases hsa : scope_matches a v6f v4f <;> rcases hsb : scope_matches b v6f v4f <;>
    rcases hla : label_matches a labf <;> rcases hlb : label_matches b labf <;>
      simp

/-- Antisymmetry of the lexicographic key comparison. -/
theorem keyCmp_antisymm (x y : Int × Int × Int × Int) : keyCmp x y = -keyCmp y x := by
  obtain ⟨x1, x2, x3, x4⟩ := x
  obtain ⟨y1, y2, y3, y4⟩ := y
  simp only [keyCmp]
  split_ifs <;> omega

/-- Non-negativity of the key comparison characterised as a lexicographic
greater-or-equal condition on the components. -/
theorem keyCmp_nonneg_iff (x y : Int × Int × Int × Int) :
    0 ≤ keyCmp x y ↔
      x.1 > y.1 ∨ (x.1 = y.1 ∧ (x.2.1 > y.2.1 ∨ (x.2.1 = y.2.1 ∧
        (x.2.2.1 > y.2.2.1 ∨ (x.2.2.1 = y.2.2.1 ∧ x.2.2.2 ≥ y.2.2.2))))) := by
  obtain ⟨x1, x2, x3, x4⟩ := x
  obtain ⟨y1, y2, y3, y4⟩ := y
  simp only [keyCmp]
  split_ifs <;> simp <;> omega

/-- Transitivity of non-negativity of the lexicographic key comparison. -/
theorem keyCmp_trans (x y z : Int × Int × Int × Int) (h1 : 0 ≤ keyCmp x y)
    (h2 : 0 ≤ keyCmp y z) : 0 ≤ keyCmp x z := by
  rw [keyCmp_nonneg_iff] at h1 h2 ⊢
  omega

/- ----------------------------------------------------------------
Claim theorems.
---------------------------------------------------------------- -/

/-- Claim C1: for every pair of destination addresses and every source
summary, the comparator returns the verdict of the first discriminating
rule in the fixed order rule 2, rule 5, rule 6, rule 8, and 0 if all tie. -/
theorem compare_first_discriminating_rule (a b : Ip6Addr) (v6f v4f labf : Nat) :
    dns_compare_destination_address a b v6f v4f labf
      = firstNonzero [rule2_verdict a b v6f v4f, rule5_verdict a b labf,
          rule6_verdict a b, rule8_verdict a b] := by
  rw [dns_compare_unfold]
  simp only [firstNonzero, rule2_verdict, rule5_verdict, rule6_verdict, rule8_verdict]
  rcases hsa : scope_matches a v6f v4f <;> rcases hsb : scope_matches b v6f v4f <;>
    rcases hla : label_matches a labf <;> rcases hlb : label_matches b labf <;>
      simp [hsa, hsb, hla, hlb] <;> split_ifs <;> first | rfl | simp_all

/-- Claim C3: the comparator is a total preorder: for all destinations a,
b, c and every source summary, cmp a b = -(cmp b a), and if cmp a b and
cmp b c are both non-negative then so is cmp a c. -/
theorem compare_total_preorder (a b c : Ip6Addr) (v6f v4f labf : Nat) :
    dns_compare_destination_address a b v6f v4f labf
      = -dns_compare_destination_address b a v6f v4f labf
    ∧ (0 ≤ dns_compare_destination_address a b v6f v4f labf →
       0 ≤ dns_compare_destination_address b c v6f v4f labf →
       0 ≤ dns_compare_destination_address a c v6f v4f labf) := by
  rw [dns_compare_eq_keyCmp a b, dns_compare_eq_keyCmp b a,
    dns_compare_eq_keyCmp b c, dns_compare_eq_keyCmp a c]
  exact ⟨keyCmp_antisymm _ _, keyCmp_trans _ _ _⟩

/-- Claim C3 witness: the total preorder theorem applied at ::1, fe80::1
and an IPv4-mapped address with empty source masks. -/
theorem compare_total_preorder_witness :
    dns_compare_destination_address ⟨0, 0, 0, 1⟩ ⟨0xfe800000, 0, 0, 1⟩ 0 0 0
      = -dns_compare_destination_address ⟨0xfe800000, 0, 0, 1⟩ ⟨0, 0, 0, 1⟩ 0 0 0
    ∧ 0 ≤ dns_compare_destination_address ⟨0, 0, 0, 1⟩ ⟨0, 0, 0x0000ffff, 0x0a000001⟩ 0 0 0 := by
  refine ⟨(compare_total_preorder ⟨0, 0, 0, 1⟩ ⟨0xfe800000, 0, 0, 1⟩
    ⟨0, 0, 0x0000ffff, 0x0a000001⟩ 0 0 0).1, ?_⟩
  exact (compare_total_preorder ⟨0, 0, 0, 1⟩ ⟨0xfe800000, 0, 0, 1⟩
    ⟨0, 0, 0x0000ffff, 0x0a000001⟩ 0 0 0).2 (by decide) (by decide)

/-- Claim C5: for every IPv6 address, the label function tests its prefix
predicates in exactly the specified order, returning the first match with
General as default; in particular the all-zero address is classified
V4Compat (label 3), not General (label 1). -/
theorem label_follows_ordered_prefix_chain :
    (∀ a : Ip6Addr, dns_get_precedence_label a = label_spec a)
    ∧ dns_get_precedence_label ⟨0, 0, 0, 0⟩ = 3
    ∧ dns_get_precedence_label ⟨0, 0, 0, 0⟩ ≠ 1 := by
  refine ⟨fun a => rfl, by decide, by decide⟩

/-- Claim C6: for every IPv6 address, the scope function returns the
multicast nibble for multicast addresses, LinkLocal (0x2) for link-local,
loopback and the two IPv4-mapped local ranges, Site (0x5) for fec0::/10,
and Global (0xE) otherwise; it is total, returning exactly one scope. -/
theorem scope_follows_spec_rules :
    ∀ a : Ip6Addr, dns_addr_get_scope a = scope_spec a
      ∧ ∃! s : Nat, dns_addr_get_scope a = s := by
  intro a
  exact ⟨rfl, dns_addr_get_scope a, rfl, fun y h => h.symm⟩

/-- Claim C6 witness: the scope theorem applied at the loopback address,
with the uniqueness part instantiated at its computed scope. -/
theorem scope_follows_spec_rules_witness :
    dns_addr_get_scope ⟨0, 0, 0, 1⟩ = scope_spec ⟨0, 0, 0, 1⟩
    ∧ ∃! s : Nat, dns_addr_get_scope ⟨0, 0, 0, 1⟩ = s :=
  scope_follows_spec_rules ⟨0, 0, 0, 1⟩

/-- Claim C7: for every label value, the precedence function returns
exactly the value of the RFC 6724 table, and 0 for every unlisted label. -/
theorem precedence_matches_rfc6724_table :
    ∀ label : Nat, dns_precedence_for_label label = precedence_spec label := by
  intro label
  unfold dns_precedence_for_label precedence_spec
  unfold IP6_PRECEDENCE_LABEL_LOCALHOST IP6_PRECEDENCE_LABEL_GENERAL
    IP6_PRECEDENCE_LABEL_IPV4_COMPATIBLE_IPV6 IP6_PRECEDENCE_LABEL_6TO4
    IP6_PRECEDENCE_LABEL_IPV4_MAPPED_IPV6 IP6_PRECEDENCE_LABEL_TOREDO
    IP6_PRECEDENCE_LABEL_SITE_LOCAL IP6_PRECEDENCE_LABEL_6BONE
    IP6_PRECEDENCE_LABEL_ULA
  split_ifs <;> omega

/-- Claim C2: with candidate sources fe80::1 and 198.51.100.117, the
destination list [2001:db8:1::1, 198.51.100.121] sorts to
[198.51.100.121, 2001:db8:1::1], and the reversed input list sorts to the
same output. -/
theorem sort_scenario_prefer_matching_scope :
    lwip_sortdestinationaddresses
        [IpAddr.v6 ⟨0x20010db8, 0x00010000, 0, 1⟩ 0, IpAddr.v4 0xC6336479]
        [IpAddr.v6 ⟨0xfe800000, 0, 0, 1⟩ 0, IpAddr.v4 0xC6336475]
      = [IpAddr.v4 0xC6336479, IpAddr.v6 ⟨0x20010db8, 0x00010000, 0, 1⟩ 0]
    ∧ lwip_sortdestinationaddresses
        [IpAddr.v4 0xC6336479, IpAddr.v6 ⟨0x20010db8, 0x00010000, 0, 1⟩ 0]
        [IpAddr.v6 ⟨0xfe800000, 0, 0, 1⟩ 0, IpAddr.v4 0xC6336475]
      = [IpAddr.v4 0xC6336479, IpAddr.v6 ⟨0x20010db8, 0x00010000, 0, 1⟩ 0] := by
  exact ⟨by decide, by decide⟩

/-- An IPv4-mapped address always receives label V4Mapped (4): the loopback
test that comes first in the chain cannot match because the third word of a
mapped address is 0xffff, not 0. -/
theorem label_of_mapped (a : Ip6Addr) (h : ip6_addr_isipv4mappedipv6 a = true) :
    dns_get_precedence_label a = 4 := by
  have hl : ip6_addr_isloopback a = false := by
    simp only [ip6_addr_isipv4mappedipv6, Bool.and_eq_true, beq_iff_eq] at h
    simp only [ip6_addr_isloopback, Bool.and_eq_false_iff, beq_eq_false_iff_ne]
    omega
  simp [dns_get_precedence_label, hl, h, IP6_PRECEDENCE_LABEL_IPV4_MAPPED_IPV6]

/-- A non-mapped address never receives label V4Mapped (4). -/
theorem label_of_unmapped_ne (a : Ip6Addr) (h : ip6_addr_isipv4mappedipv6 a = false) :
    dns_get_precedence_label a ≠ 4 := by
  simp only [dns_get_precedence_label, h]
  split_ifs <;> simp_all [IP6_PRECEDENCE_LABEL_LOCALHOST, IP6_PRECEDENCE_LABEL_GENERAL,
    IP6_PRECEDENCE_LABEL_IPV4_COMPATIBLE_IPV6, IP6_PRECEDENCE_LABEL_6TO4,
    IP6_PRECEDENCE_LABEL_IPV4_MAPPED_IPV6, IP6_PRECEDENCE_LABEL_TOREDO,
    IP6_PRECEDENCE_LABEL_SITE_LOCAL, IP6_PRECEDENCE_LABEL_6BONE, IP6_PRECEDENCE_LABEL_ULA]

/-- Only label 4 has precedence 35. -/
theorem precedence_eq_35_iff (l : Nat) : dns_precedence_for_label l = 35 ↔ l = 4 := by
  simp only [dns_precedence_for_label, IP6_PRECEDENCE_LABEL_LOCALHOST,
    IP6_PRECEDENCE_LABEL_GENERAL, IP6_PRECEDENCE_LABEL_IPV4_COMPATIBLE_IPV6,
    IP6_PRECEDENCE_LABEL_6TO4, IP6_PRECEDENCE_LABEL_IPV4_MAPPED_IPV6,
    IP6_PRECEDENCE_LABEL_TOREDO, IP6_PRECEDENCE_LABEL_SITE_LOCAL,
    IP6_PRECEDENCE_LABEL_6BONE, IP6_PRECEDENCE_LABEL_ULA]
  split_ifs <;> first | omega | simp_all

/-- Claim C10: for every pair of destinations of which exactly one is
IPv4-mapped, and every source summary, the comparator never returns 0:
when rules 2 and 5 tie, rule 6 discriminates, because the mapped address
has label V4Mapped with precedence 35 and no other label has precedence 35. -/
theorem mixed_family_pair_never_ties (a b : Ip6Addr) (v6f v4f labf : Nat)
    (h : ip6_addr_isipv4mappedipv6 a ≠ ip6_addr_isipv4mappedipv6 b) :
    dns_compare_destination_address a b v6f v4f labf ≠ 0 := by
  have hp : dest_precedence a ≠ dest_precedence b := by
    unfold dest_precedence
    rcases ha : ip6_addr_isipv4mappedipv6 a with _ | _ <;>
      rcases hb : ip6_addr_isipv4mappedipv6 b with _ | _
    · exact absurd rfl (ha ▸ hb ▸ h)
    · rw [label_of_mapped b hb]
      intro heq
      exact label_of_unmapped_ne a ha ((precedence_eq_35_iff _).mp (heq.trans rfl))
    · rw [label_of_mapped a ha]
      intro heq
      exact label_of_unmapped_ne b hb ((precedence_eq_35_iff _).mp (heq.symm.trans rfl))
    · exact absurd rfl (ha ▸ hb ▸ h)
  rw [dns_compare_unfold]
  split_ifs <;> first | decide | omega

/-- Claim C10 witness: the theorem applied to the IPv4-mapped 10.0.0.1 and
the non-mapped 2001:db8:1::1 with empty source masks. -/
theorem mixed_family_pair_never_ties_witness :
    dns_compare_destination_address ⟨0, 0, 0x0000ffff, 0x0a000001⟩
      ⟨0x20010db8, 0x00010000, 0, 1⟩ 0 0 0 ≠ 0 :=
  mixed_family_pair_never_ties ⟨0, 0, 0x0000ffff, 0x0a000001⟩
    ⟨0x20010db8, 0x00010000, 0, 1⟩ 0 0 0 (by decide)

/- ----------------------------------------------------------------
Stability of the bubble sort (claim C4 machinery).
---------------------------------------------------------------- -/

/-- Antisymmetry of the element comparison used by the sort. -/
theorem dest_cmp_antisymm (f : SourceFlags) (x y : IpAddr) :
    dest_cmp f x y = -dest_cmp f y x := by
  unfold dest_cmp
  rw [dns_compare_eq_keyCmp, dns_compare_eq_keyCmp]
  exact keyCmp_antisymm _ _

/-- One bubble pass permutes its input. -/
theorem bubble_pass_perm {α : Type} (cmp : α → α → Int) :
    ∀ (k : Nat) (l : List α), (bubble_pass cmp k l).Perm l := by
  intro k
  induction k with
  | zero => intro l; exact List.Perm.refl l
  | succ k ih =>
    intro l
    match l with
    | [] => exact List.Perm.refl []
    | [a] => exact List.Perm.refl [a]
    | a :: b :: rest =>
      rw [bubble_pass]
      split_ifs with h
      · exact ((ih (a :: rest)).cons b).trans (List.Perm.swap a b rest)
      · exact (ih (b :: rest)).cons a

/-- The whole bubble sort permutes its input. -/
theorem bubble_steps_perm {α : Type} (cmp : α → α → Int) :
    ∀ (s : Nat) (l : List α), (bubble_steps cmp s l).Perm l := by
  intro s
  induction s with
  | zero => intro l; exact List.Perm.refl l
  | succ s ih =>
    intro l
    exact (ih (bubble_pass cmp (s + 1) l)).trans (bubble_pass_perm cmp (s + 1) l)

/-- A bubble pass preserves any pairwise relation that is recovered after
each swap, that is, any R with cmp a b < 0 implying R b a. -/
theorem bubble_pass_pairwise {α : Type} (cmp : α → α → Int) (R : α → α → Prop)
    (hswap : ∀ a b, cmp a b < 0 → R b a) :
    ∀ (k : Nat) (l : List α), l.Pairwise R → (bubble_pass cmp k l).Pairwise R := by
  intro k
  induction k with
  | zero => intro l h; exact h
  | succ k ih =>
    intro l h
    match l with
    | [] => exact h
    | [a] => exact h
    | a :: b :: rest =>
      rw [List.pairwise_cons] at h
      obtain ⟨ha, h2⟩ := h
      rw [List.pairwise_cons] at h2
      obtain ⟨hb, hrest⟩ := h2
      rw [bubble_pass]
      split_ifs with hc
      · rw [List.pairwise_cons]
        refine ⟨?_, ih (a :: rest) ?_⟩
        · intro x hx
          rcases List.mem_cons.mp ((bubble_pass_perm cmp k (a :: rest)).mem_iff.mp hx) with hxa | hxr
          · exact hxa ▸ hswap a b hc
          · exact hb x hxr
        · rw [List.pairwise_cons]
          exact ⟨fun x hx => ha x (List.mem_cons_of_mem b hx), hrest⟩
      · rw [List.pairwise_cons]
        refine ⟨?_, ih (b :: rest) ?_⟩
        · intro x hx
          exact ha x ((bubble_pass_perm cmp k (b :: rest)).mem_iff.mp hx)
        · rw [List.pairwise_cons]
          exact ⟨hb, hrest⟩

/-- The whole bubble sort preserves such a pairwise relation. -/
theorem bubble_steps_pairwise {α : Type} (cmp : α → α → Int) (R : α → α → Prop)
    (hswap : ∀ a b, cmp a b < 0 → R b a) :
    ∀ (s : Nat) (l : List α), l.Pairwise R → (bubble_steps cmp s l).Pairwise R := by
  intro s
  induction s with
  | zero => intro l h; exact h
  | succ s ih =>
    intro l h
    exact ih (bubble_pass cmp (s + 1) l) (bubble_pass_pairwise cmp R hswap (s + 1) l h)

/-- A bubble pass on position-decorated elements projects to the bubble
pass on the bare elements. -/
theorem bubble_pass_map_fst {α : Type} (cmp : α → α → Int) :
    ∀ (k : Nat) (lp : List (α × Nat)),
      (bubble_pass (fun p q => cmp p.1 q.1) k lp).map Prod.fst
        = bubble_pass cmp k (lp.map Prod.fst) := by
  intro k
  induction k with
  | zero => intro lp; rfl
  | succ k ih =>
    intro lp
    match lp with
    | [] => rfl
    | [a] => rfl
    | a :: b :: rest =>
      rw [bubble_pass]
      simp only [List.map_cons, bubble_pass]
      split_ifs with h
      · simpa using ih (a :: rest)
      · simpa using ih (b :: rest)

/-- The whole decorated bubble sort projects to the bare bubble sort. -/
theorem bubble_steps_map_fst {α : Type} (cmp : α → α → Int) :
    ∀ (s : Nat) (lp : List (α × Nat)),
      (bubble_steps (fun p q => cmp p.1 q.1) s lp).map Prod.fst
        = bubble_steps cmp s (lp.map Prod.fst) := by
  intro s
  induction s with
  | zero => intro lp; rfl
  | succ s ih =>
    intro lp
    rw [bubble_steps, bubble_steps, ih, bubble_pass_map_fst]

/-- Zipping a list with consecutive positions yields strictly increasing
second components. -/
theorem zip_range_pairwise {α : Type} :
    ∀ (l : List α) (s : Nat),
      (l.zip (List.range' s l.length)).Pairwise (fun p q => p.2 < q.2) := by
  intro l
  induction l with
  | nil => intro s; simp
  | cons a t ih =>
    intro s
    rw [List.length_cons, List.range'_succ s t.length 1, List.zip_cons_cons,
      List.pairwise_cons]
    refine ⟨?_, ih (s + 1)⟩
    intro x hx
    have hmem := (List.of_mem_zip hx).2
    have := List.mem_range'_1.mp hmem
    simpa using by omega

/-- The destination list decorated with input positions. -/
def indexed_dest (dest_addr_list : List IpAddr) : List (IpAddr × Nat) :=
  dest_addr_list.zip (List.range dest_addr_list.length)

/-- The sort of lwip_sortdestinationaddresses run on position-decorated
elements, comparing only the element components. -/
def sort_indexed (dest_addr_list cand_source_addr_list : List IpAddr) :
    List (IpAddr × Nat) :=
  if dest_addr_list.length ≤ 1 then indexed_dest dest_addr_list
  else
    bubble_steps
      (fun p q => dest_cmp (summarize_sources cand_source_addr_list) p.1 q.1)
      (dest_addr_list.length - 1) (indexed_dest dest_addr_list)

/-- Projecting the decorated list on elements gives back the list. -/
theorem indexed_dest_map_fst (dest : List IpAddr) :
    (indexed_dest dest).map Prod.fst = dest := by
  unfold indexed_dest
  exact List.map_fst_zip _ _ (by simp)

/-- Claim C4: lwip_sortdestinationaddresses is a stable sort: the output is
a permutation of the input; lists of length at most one are returned
untouched; the position-decorated run projects to the real run, its output
is a permutation of the decorated input, and in it any two elements whose
comparison ties appear in increasing input position. -/
theorem sort_is_stable_permutation (dest cand : List IpAddr) :
    (lwip_sortdestinationaddresses dest cand).Perm dest
    ∧ (dest.length ≤ 1 → lwip_sortdestinationaddresses dest cand = dest)
    ∧ (sort_indexed dest cand).map Prod.fst = lwip_sortdestinationaddresses dest cand
    ∧ (sort_indexed dest cand).Perm (indexed_dest dest)
    ∧ (sort_indexed dest cand).Pairwise
        (fun p q => dest_cmp (summarize_sources cand) p.1 q.1 = 0 → p.2 < q.2) := by
  refine ⟨?_, ?_, ?_, ?_, ?_⟩
  · unfold lwip_sortdestinationaddresses
    split_ifs with h
    · exact List.Perm.refl dest
    · exact bubble_steps_perm _ _ dest
  · intro h
    unfold lwip_sortdestinationaddresses
    rw [if_pos h]
  · unfold sort_indexed lwip_sortdestinationaddresses
    split_ifs with h
    · exact indexed_dest_map_fst dest
    · rw [bubble_steps_map_fst, indexed_dest_map_fst]
  · unfold sort_indexed
    split_ifs with h
    · exact List.Perm.refl _
    · exact bubble_steps_perm _ _ _
  · have hinit : (indexed_dest dest).Pairwise
        (fun p q : IpAddr × Nat => dest_cmp (summarize_sources cand) p.1 q.1 = 0 → p.2 < q.2) := by
      have h1 : (indexed_dest dest).Pairwise (fun p q : IpAddr × Nat => p.2 < q.2) := by
        unfold indexed_dest
        rw [List.range_eq_range']
        exact zip_range_pairwise dest 0
      refine List.Pairwise.imp ?_ h1
      intro p q hlt
      exact fun _ => hlt
    have hswap : ∀ p q : IpAddr × Nat,
        dest_cmp (summarize_sources cand) p.1 q.1 < 0 →
        (dest_cmp (summarize_sources cand) q.1 p.1 = 0 → q.2 < p.2) := by
      intro p q hlt heq
      rw [dest_cmp_antisymm] at heq
      omega
    unfold sort_indexed
    split_ifs with h
    · exact hinit
    · exact bubble_steps_pairwise _ _ hswap _ _ hinit

/-- Claim C4 witness: the stability theorem applied to a singleton list,
with the length hypothesis discharged. -/
theorem sort_is_stable_permutation_witness :
    (lwip_sortdestinationaddresses [IpAddr.v4 0x0a000001] []).Perm [IpAddr.v4 0x0a000001]
    ∧ lwip_sortdestinationaddresses [IpAddr.v4 0x0a000001] [] = [IpAddr.v4 0x0a000001] :=
  ⟨(sort_is_stable_permutation [IpAddr.v4 0x0a000001] []).1,
   (sort_is_stable_permutation [IpAddr.v4 0x0a000001] []).2.1 (by decide)⟩

/- ----------------------------------------------------------------
Service string parsing in lwip_getaddrinfo (claim C8).
---------------------------------------------------------------- -/

/-- The C isdigit test on ASCII codes. -/
def c_isdigit (c : Char) : Bool := 48 ≤ c.toNat && c.toNat ≤ 57

/-- The C isspace test on ASCII codes: space and the five control
whitespace characters. -/
def c_isspace (c : Char) : Bool := c.toNat == 32 || (9 ≤ c.toNat && c.toNat ≤ 13)

/-- Numeric value of an ASCII digit character. -/
def digitVal (c : Char) : Nat := c.toNat - 48

/-- Digit-consuming loop of atoi: accumulate decimal digits left to right
and stop at the first non-digit character. -/
def atoiLoop : List Char → Nat → Nat
  | [], acc => acc
  | c :: cs, acc => if c_isdigit c then atoiLoop cs (acc * 10 + digitVal c) else acc

/-- Modelled from the spec: the C standard library atoi used by
lwip_getaddrinfo on the service string, not part of the provided sources.
Skips leading whitespace, consumes an optional sign and then decimal
digits, returning 0 when no digits follow; the value is mathematical
(overflowing inputs are outside the model). -/
def atoi (s : List Char) : Int :=
  match s.dropWhile c_isspace with
  | [] => 0
  | c :: rest =>
    if c = '-' then -(atoiLoop rest 0 : Int)
    else if c = '+' then (atoiLoop rest 0 : Int)
    else (atoiLoop (c :: rest) 0 : Int)

/-- The service-string handling of lwip_getaddrinfo (netdb.c lines 340 to
351): atoi the string; return EAI_SERVICE (modelled as none) when atoi
gave 0 and the first character of the string is not the digit 0, or when
the parsed value is outside [0, 0xffff]; otherwise accept the parsed
port number. -/
def lwip_getaddrinfo_service (servname : List Char) : Option Int :=
  let port_nr := atoi servname
  if port_nr = 0 ∧ servname.head? ≠ some '0' then none
  else if port_nr < 0 ∨ port_nr > 0xffff then none
  else some port_nr

/-- Decimal value of a digit string. -/
def decimalValue (s : List Char) : Nat :=
  s.foldl (fun acc c => acc * 10 + digitVal c) 0

/-- The predicate of the claim: the service string is a decimal integer in
the range [0, 65535], that is, a nonempty all-digit string whose value is
at most 65535. -/
def isDecimalPortInRange (s : List Char) : Prop :=
  s ≠ [] ∧ (∀ c ∈ s, c_isdigit c = true) ∧ decimalValue s ≤ 65535

instance (s : List Char) : Decidable (isDecimalPortInRange s) := by
  unfold isDecimalPortInRange
  infer_instance

/-- On an all-digit list the atoi loop is the decimal foldl. -/
theorem atoiLoop_eq_foldl (s : List Char) (h : ∀ c ∈ s, c_isdigit c = true) :
    ∀ acc : Nat, atoiLoop s acc = s.foldl (fun a c => a * 10 + digitVal c) acc := by
  induction s with
  | nil => intro acc; rfl
  | cons c cs ih =>
    intro acc
    rw [atoiLoop, if_pos (h c (List.mem_cons_self c cs)), List.foldl_cons]
    exact ih (fun x hx => h x (List.mem_cons_of_mem c hx)) _

/-- The decimal foldl never decreases its accumulator. -/
theorem foldl_decimal_ge (s : List Char) :
    ∀ acc : Nat, acc ≤ s.foldl (fun a c => a * 10 + digitVal c) acc := by
  induction s with
  | nil => intro acc; exact Nat.le_refl acc
  | cons c cs ih =>
    intro acc
    rw [List.foldl_cons]
    exact le_trans (by omega) (ih (acc * 10 + digitVal c))

/-- A digit character is not whitespace and is neither sign character. -/
theorem digit_not_space_nor_sign (c : Char) (h : c_isdigit c = true) :
    c_isspace c = false ∧ c ≠ '-' ∧ c ≠ '+' := by
  simp only [c_isdigit, Bool.and_eq_true, decide_eq_true_eq] at h
  refine ⟨?_, ?_, ?_⟩
  · simp only [c_isspace, Bool.or_eq_false_iff, Bool.and_eq_false_iff, beq_eq_false_iff_ne,
      ne_eq, decide_eq_false_iff_not]
    omega
  · intro hc; rw [hc] at h; simp at h
  · intro hc; rw [hc] at h; simp at h

/-- A digit character with digit value 0 is the character 0. -/
theorem digit_val_zero (c : Char) (h : c_isdigit c = true) (hz : digitVal c = 0) :
    c = '0' := by
  simp only [c_isdigit, Bool.and_eq_true, decide_eq_true_eq] at h
  simp only [digitVal] at hz
  exact Char.ext (UInt32.toNat.inj (by change c.toNat = 48; omega))

/-- On a nonempty all-digit string, atoi computes the decimal value. -/
theorem atoi_of_digits (c : Char) (cs : List Char)
    (h : ∀ x ∈ c :: cs, c_isdigit x = true) :
    atoi (c :: cs) = (decimalValue (c :: cs) : Int) := by
  obtain ⟨hns, hnm, hnp⟩ := digit_not_space_nor_sign c (h c (List.mem_cons_self c cs))
  unfold atoi
  rw [List.dropWhile_cons, hns]
  simp only [Bool.false_eq_true, if_false]
  rw [if_neg hnm, if_neg hnp, atoiLoop_eq_foldl (c :: cs) h]
  rfl

/-- Claim C8 counterexample: the service string 1a is not a decimal
integer, yet the service handling of lwip_getaddrinfo accepts it with port
1 instead of returning EAI_SERVICE, because atoi stops at the first
non-digit character. -/
theorem service_check_accepts_nondecimal_string :
    lwip_getaddrinfo_service ['1', 'a'] = some 1
    ∧ ¬ isDecimalPortInRange ['1', 'a'] := by
  constructor
  · rfl
  · intro h
    have := h.2.1 'a' (by simp)
    simp [c_isdigit] at this

/-- Claim C8 as amended: the service handling returns EAI_SERVICE exactly
when atoi of the string is 0 while the first character is not the digit 0,
or when the atoi value lies outside [0, 65535]; in particular every plain
decimal string with value at most 65535 is accepted with its decimal value
as the parsed port. -/
theorem service_check_amended (s : List Char) :
    (lwip_getaddrinfo_service s = none ↔
      (atoi s = 0 ∧ s.head? ≠ some '0') ∨ atoi s < 0 ∨ atoi s > 0xffff)
    ∧ (isDecimalPortInRange s →
        lwip_getaddrinfo_service s = some ((decimalValue s : Int))) := by
  constructor
  · unfold lwip_getaddrinfo_service
    dsimp only
    split_ifs with h1 h2 <;> simp_all
  · intro hdec
    obtain ⟨hne, hall, hle⟩ := hdec
    obtain ⟨c, cs, rfl⟩ := List.exists_cons_of_ne_nil hne
    have hatoi := atoi_of_digits c cs hall
    unfold lwip_getaddrinfo_service
    dsimp only
    rw [hatoi]
    by_cases hz : decimalValue (c :: cs) = 0
    · have hc0 : c = '0' := by
        apply digit_val_zero c (hall c (List.mem_cons_self c cs))
        have hgrow := foldl_decimal_ge cs (digitVal c)
        have hval : decimalValue (c :: cs)
            = cs.foldl (fun a x => a * 10 + digitVal x) (digitVal c) := by
          simp [decimalValue]
        omega
      have h1 : ¬(((decimalValue (c :: cs) : Int)) = 0 ∧ (c :: cs).head? ≠ some '0') := by
        intro hcon
        exact hcon.2 (by simp [hc0])
      have h2 : ¬(((decimalValue (c :: cs) : Int)) < 0
          ∨ ((decimalValue (c :: cs) : Int)) > 0xffff) := by
        intro hcon
        rcases hcon with hneg | hbig <;> omega
      rw [if_neg h1, if_neg h2]
    · have h1 : ¬(((decimalValue (c :: cs) : Int)) = 0 ∧ (c :: cs).head? ≠ some '0') := by
        intro hcon
        have := hcon.1
        omega
      have h2 : ¬(((decimalValue (c :: cs) : Int)) < 0
          ∨ ((decimalValue (c :: cs) : Int)) > 0xffff) := by
        intro hcon
        rcases hcon with hneg | hbig <;> omega
      rw [if_neg h1, if_neg h2]

/-- Claim C8 amended witness: the amended theorem applied to the decimal
service string 80, with the decimal hypothesis discharged. -/
theorem service_check_amended_witness :
    (lwip_getaddrinfo_service ['8', '0'] = none ↔
      (atoi ['8', '0'] = 0 ∧ ['8', '0'].head? ≠ some '0')
        ∨ atoi ['8', '0'] < 0 ∨ atoi ['8', '0'] > 0xffff)
    ∧ lwip_getaddrinfo_service ['8', '0'] = some ((decimalValue ['8', '0'] : Int)) :=
  ⟨(service_check_amended ['8', '0']).1,
   (service_check_amended ['8', '0']).2 (by decide)⟩

/- ----------------------------------------------------------------
Candidate source collection in dns_sort_destination_addresses (claim C9).
---------------------------------------------------------------- -/

/-- Configuration constant LWIP_IPV6_NUM_ADDRESSES, the number of IPv6
address slots per interface (lwIP default 3, as assumed by the netdb.c
comment fixing the candidate bound at 24). -/
def LWIP_IPV6_NUM_ADDRESSES : Nat := 3

/-- netdb.c: MAX_CAND_SOURCE_ADDRESSES = (LWIP_IPV6_NUM_ADDRESSES + 1) * 6. -/
def MAX_CAND_SOURCE_ADDRESSES : Nat := (LWIP_IPV6_NUM_ADDRESSES + 1) * 6

/-- Modelled from the spec: one entry of the platform interface table,
which netdb.c reads through the abstract NETIF_FOREACH iterator: the
interface IPv4 address word and its IPv6 address slots. -/
structure Netif where
  ip_addr : Nat
  ip6_addr : List Ip6Addr

/-- The body of the NETIF_FOREACH loop of dns_sort_destination_addresses:
append the IPv4 address when it is non-zero, then each non-zero IPv6 slot
(the first LWIP_IPV6_NUM_ADDRESSES of them), every append guarded by the
capacity check against MAX_CAND_SOURCE_ADDRESSES. -/
def collect_netif_sources (acc : List IpAddr) (netif : Netif) : List IpAddr :=
  let acc1 :=
    if netif.ip_addr ≠ 0 ∧ acc.length < MAX_CAND_SOURCE_ADDRESSES then
      acc ++ [IpAddr.v4 netif.ip_addr]
    else acc
  (netif.ip6_addr.take LWIP_IPV6_NUM_ADDRESSES).foldl
    (fun a s =>
      if ¬ ip6_addr_isany_val s ∧ a.length < MAX_CAND_SOURCE_ADDRESSES then
        a ++ [IpAddr.v6 s 0]
      else a) acc1

/-- The source-collection phase of dns_sort_destination_addresses over the
whole interface table, starting from the empty candidate list. -/
def collect_cand_sources (netif_list : List Netif) : List IpAddr :=
  netif_list.foldl collect_netif_sources []

/-- Function dns_sort_destination_addresses from netdb.c: after its own
length short circuit, collect candidate sources from the interface table
and hand them to lwip_sortdestinationaddresses. -/
def dns_sort_destination_addresses (dest_addr_list : List IpAddr)
    (netif_list : List Netif) : List IpAddr :=
  if dest_addr_list.length ≤ 1 then dest_addr_list
  else lwip_sortdestinationaddresses dest_addr_list (collect_cand_sources netif_list)

/-- The guarded IPv6 slot fold keeps the candidate list within the bound. -/
theorem ip6_slot_fold_length_le (slots : List Ip6Addr) :
    ∀ acc : List IpAddr, acc.length ≤ MAX_CAND_SOURCE_ADDRESSES →
      (slots.foldl
        (fun a s =>
          if ¬ ip6_addr_isany_val s ∧ a.length < MAX_CAND_SOURCE_ADDRESSES then
            a ++ [IpAddr.v6 s 0]
          else a) acc).length ≤ MAX_CAND_SOURCE_ADDRESSES := by
  induction slots with
  | nil => intro acc h; exact h
  | cons s t ih =>
    intro acc h
    rw [List.foldl_cons]
    apply ih
    split_ifs with hc
    · rw [List.length_append]
      have := hc.2
      simp only [List.length_cons, List.length_nil]
      omega
    · exact h

/-- One interface step keeps the candidate list within the bound. -/
theorem collect_netif_sources_length_le (netif : Netif) (acc : List IpAddr)
    (h : acc.length ≤ MAX_CAND_SOURCE_ADDRESSES) :
    (collect_netif_sources acc netif).length ≤ MAX_CAND_SOURCE_ADDRESSES := by
  unfold collect_netif_sources
  apply ip6_slot_fold_length_le
  split_ifs with hc
  · rw [List.length_append]
    have := hc.2
    simp only [List.length_cons, List.length_nil]
    omega
  · exact h

/-- The interface fold keeps the candidate list within the bound from any
start below it. -/
theorem collect_cand_sources_aux (netif_list : List Netif) :
    ∀ acc : List IpAddr, acc.length ≤ MAX_CAND_SOURCE_ADDRESSES →
      (netif_list.foldl collect_netif_sources acc).length
        ≤ MAX_CAND_SOURCE_ADDRESSES := by
  induction netif_list with
  | nil => intro acc h; exact h
  | cons n t ih =>
    intro acc h
    rw [List.foldl_cons]
    exact ih _ (collect_netif_sources_length_le n acc h)

/-- Claim C9: for every interface table, the source collection of
dns_sort_destination_addresses emits at most
(LWIP_IPV6_NUM_ADDRESSES + 1) * 6 candidate source addresses in total
across all interfaces; the collection is a total function into a plain
list, so it can never produce an error, and since every append is guarded
by the capacity check, every element sits at an index strictly below the
bound. -/
theorem source_collection_bounded (netif_list : List Netif) :
    (collect_cand_sources netif_list).length ≤ (LWIP_IPV6_NUM_ADDRESSES + 1) * 6
    ∧ ∀ i : Nat, i < (collect_cand_sources netif_list).length →
        i < (LWIP_IPV6_NUM_ADDRESSES + 1) * 6 := by
  have hb : (collect_cand_sources netif_list).length ≤ MAX_CAND_SOURCE_ADDRESSES :=
    collect_cand_sources_aux netif_list [] (by simp [MAX_CAND_SOURCE_ADDRESSES])
  rw [MAX_CAND_SOURCE_ADDRESSES] at hb
  exact ⟨hb, fun i hi => lt_of_lt_of_le hi hb⟩

/-- Claim C9 witness: the bound theorem applied to a one-interface table
holding a single IPv4 address, with the index hypothesis discharged. -/
theorem source_collection_bounded_witness :
    (collect_cand_sources [⟨0x0a000001, []⟩]).length
      ≤ (LWIP_IPV6_NUM_ADDRESSES + 1) * 6
    ∧ (0 : Nat) < (LWIP_IPV6_NUM_ADDRESSES + 1) * 6 :=
  ⟨(source_collection_bounded [⟨0x0a000001, []⟩]).1,
   (source_collection_bounded [⟨0x0a000001, []⟩]).2 0 (by decide)⟩

end LwipNetdb
